import Mathlib

/-!
A shallow embedding of the authentication core of the `expense-tracker`
repository (`backend/app/auth/jwt.py`, `backend/app/auth/dependencies.py`,
`backend/app/routers/auth.py`), together with theorems settling the claims
about it.  Times are modelled as integer epoch seconds; the database is a
list of user rows; the external libraries (python-jose, passlib) are
modelled by explicit datatypes with their documented success/raise
behaviour.
-/

namespace ExpenseTracker

/-! ## Model of Python's `str`/`int` builtins on decimal integers

`create_token_pair` stores `str(user_id)` in the `sub` claim and
`verify_token` recovers it with `int(user_id_str)`.  We model `str` on a
non-negative integer as a decimal printer and `int` as a decimal parser
(optional sign, then one or more ASCII digits; Python additionally strips
surrounding whitespace and allows `_` separators, which `str` never
produces and the claims never exercise). -/

def digitChar (d : Nat) : Char :=
  match d with
  | 0 => '0' | 1 => '1' | 2 => '2' | 3 => '3' | 4 => '4'
  | 5 => '5' | 6 => '6' | 7 => '7' | 8 => '8' | _ => '9'

def digitVal (c : Char) : Nat := c.toNat - '0'.toNat

/-- Decimal digits, least significant first (empty for 0), with explicit
fuel so that the definition is structural and computes by reduction; the
fuel is sufficient whenever `n ≤ fuel`. -/
def natDigitsRevFuel : Nat → Nat → List Char
  | _, 0 => []
  | 0, _ + 1 => []
  | fuel + 1, n + 1 => digitChar ((n + 1) % 10) :: natDigitsRevFuel fuel ((n + 1) / 10)

/-- Decimal digits of `n`, least significant first (empty for 0). -/
def natDigitsRev (n : Nat) : List Char :=
  natDigitsRevFuel n n

/-- Model of Python `str` on a non-negative integer. -/
def py_str (n : Nat) : String :=
  if n = 0 then "0" else String.mk (natDigitsRev n).reverse

/-- Value of a list of ASCII digit characters, most significant first. -/
def parseDigits (l : List Char) : Nat :=
  l.foldl (fun acc c => acc * 10 + digitVal c) 0

/-- Model of Python `int` applied to a string: optional `+`/`-` sign
followed by one or more ASCII decimal digits; anything else raises
`ValueError`, modelled as `none`. -/
def py_int_chars? (l : List Char) : Option Int :=
  match l with
  | [] => none
  | c :: rest =>
      if c == '-' then
        if rest ≠ [] ∧ rest.all Char.isDigit then some (-(parseDigits rest : Int)) else none
      else if c == '+' then
        if rest ≠ [] ∧ rest.all Char.isDigit then some (parseDigits rest : Int) else none
      else if (c :: rest).all Char.isDigit then some (parseDigits (c :: rest) : Int)
      else none

def py_int? (s : String) : Option Int :=
  py_int_chars? s.data

/-! ## Model of passlib's `CryptContext(schemes=["bcrypt"])`

A stored hash string is either a well-formed bcrypt hash of some password
(salting is abstracted away: equal passwords verify, unequal ones do
not), or a string the context cannot identify as any configured scheme,
on which passlib's `CryptContext.verify` raises `UnknownHashError`. -/

inductive HashStr where
  | bcrypt (password : String)
  | malformedHash (raw : String)
deriving Repr, DecidableEq

inductive PasslibError where
  | unknownHash
deriving Repr, DecidableEq

/-- Model of `pwd_context.verify` (passlib): returns whether the password
matches a well-formed hash, raises `UnknownHashError` on a hash string it
cannot identify. -/
def pwd_context_verify (plain_password : String) (hashed_password : HashStr) :
    Except PasslibError Bool :=
  match hashed_password with
  | .bcrypt password => .ok (plain_password == password)
  | .malformedHash _ => .error .unknownHash

/-- `jwt.py` `verify_password`: calls `pwd_context.verify` directly, with
no exception handling, so any library error propagates to the caller. -/
def verify_password (plain_password : String) (hashed_password : HashStr) :
    Except PasslibError Bool :=
  pwd_context_verify plain_password hashed_password

/-- `jwt.py` `hash_password`. -/
def hash_password (password : String) : HashStr :=
  HashStr.bcrypt password

/-! ## Model of python-jose JWTs and `jwt.py`'s token codec

A token is either a payload signed with a key, or an unparseable string.
`jose.jwt.decode` raises `JWTError` on a malformed token or a signature
made with a different key, and `ExpiredSignatureError` (a `JWTError`)
when the `exp` claim is strictly before the clock (zero leeway). -/

structure Payload where
  sub : Option String
  email : Option String
  typ : Option String
  exp : Int
deriving Repr, DecidableEq

inductive Jwt where
  | signed (payload : Payload) (key : String)
  | malformed (raw : String)
deriving Repr, DecidableEq

inductive JWTError where
  | invalidSignature
  | malformedToken
  | expiredSignature
deriving Repr, DecidableEq

/-- Settings: `jwt_config.secret_key` (process-wide shared secret). -/
def jwt_secret_key : String := "your-secret-key-change-this-in-production"

/-- Settings: `jwt_config.access_token_expire_minutes`. -/
def access_token_expire_minutes : Int := 30

/-- Settings: `jwt_config.refresh_token_expire_days`. -/
def refresh_token_expire_days : Int := 7

/-- Model of `jose.jwt.decode(token, key, algorithms=[...])` at clock
`now` (epoch seconds). -/
def jose_decode (token : Jwt) (key : String) (now : Int) :
    Except JWTError Payload :=
  match token with
  | .malformed _ => .error .malformedToken
  | .signed payload k =>
      if k ≠ key then .error .invalidSignature
      else if payload.exp < now then .error .expiredSignature
      else .ok payload

/-- The claims dict passed to `create_access_token` / `create_refresh_token`
by `create_token_pair`: `{"sub": ..., "email": ...}`. -/
structure JwtData where
  sub : Option String
  email : Option String
deriving Repr, DecidableEq

/-- `jwt.py` `create_access_token`: copies the data, overwrites `exp`
(now + delta, defaulting to the configured minutes) and `type = "access"`,
and signs with the shared secret. -/
def create_access_token (data : JwtData) (now : Int)
    (expires_delta : Option Int := none) : Jwt :=
  let expire : Int :=
    match expires_delta with
    | some delta => now + delta
    | none => now + access_token_expire_minutes * 60
  Jwt.signed
    { sub := data.sub, email := data.email, typ := some "access", exp := expire }
    jwt_secret_key

/-- `jwt.py` `create_refresh_token`: same, with `type = "refresh"` and a
default TTL in days. -/
def create_refresh_token (data : JwtData) (now : Int)
    (expires_delta : Option Int := none) : Jwt :=
  let expire : Int :=
    match expires_delta with
    | some delta => now + delta
    | none => now + refresh_token_expire_days * 24 * 60 * 60
  Jwt.signed
    { sub := data.sub, email := data.email, typ := some "refresh", exp := expire }
    jwt_secret_key

/-- `schemas/auth.py` `TokenData`. -/
structure TokenData where
  user_id : Option Int := none
  email : Option String := none
deriving Repr, DecidableEq

/-- `jwt.py` `verify_token`: decodes (any `JWTError`, and any other
exception, is caught and turned into `None`), checks the `type` claim
against the requested kind, requires `sub` and `email` to be present,
and converts `sub` back to an integer (a failing conversion is caught
and turned into `None`). -/
def verify_token (token : Jwt) (now : Int) (token_type : String := "access") :
    Option TokenData :=
  match jose_decode token jwt_secret_key now with
  | .error _ => none
  | .ok payload =>
      if payload.typ ≠ some token_type then none
      else
        match payload.sub with
        | none => none
        | some user_id_str =>
            match payload.email with
            | none => none
            | some email =>
                match py_int? user_id_str with
                | none => none
                | some user_id => some { user_id := some user_id, email := some email }

/-- `schemas/auth.py` `Token` (the token-pair response payload), with the
two token strings kept in the `Jwt` model. -/
structure Token where
  access_token : Jwt
  refresh_token : Jwt
  token_type : String := "bearer"
  expires_in : Int
deriving Repr, DecidableEq

/-- `jwt.py` `create_token_pair`: both tokens from the same
`{"sub": str(user_id), "email": email}` claims. -/
def create_token_pair (user_id : Nat) (email : String) (now : Int) : Token :=
  { access_token := create_access_token { sub := some (py_str user_id), email := some email } now
    refresh_token := create_refresh_token { sub := some (py_str user_id), email := some email } now
    token_type := "bearer"
    expires_in := access_token_expire_minutes * 60 }

/-! ## Model of the user store (`models/expenses.py` `User`, SQLAlchemy)

The database is a list of `User` rows; `db.get(User, id)` and
`.filter(User.email == e).first()` return the first matching row,
`db.add`+`commit` appends a row with the next autoincrement id, and
mutating a loaded row followed by `commit` replaces it in place. -/

structure User where
  id : Nat
  email : String
  username : Option String := none
  full_name : Option String := none
  hashed_password : Option HashStr := none
  is_active : Bool := true
  is_verified : Bool := false
  google_id : Option String := none
  provider : String := "local"
  avatar_url : Option String := none
  created_at : Int
  last_login : Option Int := none
deriving Repr, DecidableEq

/-- `db.get(User, user_id)`. -/
def db_get (db : List User) (user_id : Int) : Option User :=
  db.find? (fun u => (u.id : Int) == user_id)

/-- `db.query(User).filter(User.email == email).first()`. -/
def db_get_by_email (db : List User) (email : String) : Option User :=
  db.find? (fun u => u.email == email)

/-- The autoincrement id the store assigns to the next inserted row. -/
def next_id (db : List User) : Nat :=
  (db.map User.id).foldr max 0 + 1

/-- Committing an in-place mutation of a loaded row: replace the row with
the same primary key. -/
def db_update (db : List User) (u : User) : List User :=
  db.map (fun v => if v.id == u.id then u else v)

/-- Python truthiness of an optional string (`None` and `""` are falsy). -/
def py_truthy (s : Option String) : Bool :=
  match s with
  | none => false
  | some str => !(str == "")

/-- Python truthiness of an optional stored hash string (`None` and `""`
are falsy; any well-formed bcrypt hash string is non-empty). -/
def py_truthy_hash (h : Option HashStr) : Bool :=
  match h with
  | none => false
  | some (.malformedHash raw) => !(raw == "")
  | some (.bcrypt _) => true

/-- `fastapi.HTTPException` as raised by the handlers: status code and
detail message. -/
structure HTTPError where
  status_code : Nat
  detail : String
deriving Repr, DecidableEq

/-! ## `routers/auth.py` handlers -/

/-- `schemas/auth.py` `UserCreate`. -/
structure UserCreate where
  email : String
  username : Option String := none
  full_name : Option String := none
  password : String
deriving Repr, DecidableEq

/-- `schemas/auth.py` `LoginRequest`. -/
structure LoginRequest where
  email : String
  password : String
deriving Repr, DecidableEq

/-- `schemas/auth.py` `UserResponse` (`UserResponse.model_validate(user)`
projects these attributes of the row). -/
structure UserResponse where
  email : String
  username : Option String
  full_name : Option String
  is_active : Bool
  id : Nat
  is_verified : Bool
  provider : String
  avatar_url : Option String
  created_at : Int
  last_login : Option Int
deriving Repr, DecidableEq

def UserResponse.model_validate (u : User) : UserResponse :=
  { email := u.email, username := u.username, full_name := u.full_name,
    is_active := u.is_active, id := u.id, is_verified := u.is_verified,
    provider := u.provider, avatar_url := u.avatar_url,
    created_at := u.created_at, last_login := u.last_login }

/-- `routers/auth.py` `register`: reject duplicate email with 400,
otherwise hash the password and insert a local, active, unverified user.
Returns the response (or raised `HTTPException`) and the store after the
request. -/
def register (db : List User) (user_data : UserCreate) (now : Int) :
    Except HTTPError UserResponse × List User :=
  match db_get_by_email db user_data.email with
  | some _ =>
      (.error { status_code := 400, detail := "User with this email already exists" }, db)
  | none =>
      let hashed_password := hash_password user_data.password
      let new_user : User :=
        { id := next_id db
          email := user_data.email
          username := user_data.username
          full_name := user_data.full_name
          hashed_password := some hashed_password
          provider := "local"
          is_active := true
          is_verified := false
          created_at := now }
      (.ok (UserResponse.model_validate new_user), db ++ [new_user])

/-- A failure escaping a handler: an `HTTPException` raised on purpose,
or an exception from a library call the handler does not catch (turned
into a 500 by the framework). -/
inductive HandlerError where
  | http (e : HTTPError)
  | unhandled (e : PasslibError)
deriving Repr, DecidableEq

/-- The fixed 401 raised by `login` in all credential-failure branches. -/
def invalid_credentials : HandlerError :=
  .http { status_code := 401, detail := "Invalid email or password" }

/-- `routers/auth.py` `login`: look up by email (401 if absent), then
`if not user.hashed_password or not verify_password(...)` (401; a passlib
exception from `verify_password` propagates), then update `last_login`,
commit, and issue the token pair.  (The handler also decorates the
response with constant usage-hint strings, irrelevant here.) -/
def login (db : List User) (login_data : LoginRequest) (now : Int) :
    Except HandlerError (Token × List User) :=
  match db_get_by_email db login_data.email with
  | none => .error invalid_credentials
  | some user =>
      if py_truthy_hash user.hashed_password = false then
        .error invalid_credentials
      else
        match user.hashed_password with
        | none => .error invalid_credentials
        | some hp =>
            match verify_password login_data.password hp with
            | .error e => .error (.unhandled e)
            | .ok false => .error invalid_credentials
            | .ok true =>
                let user' := { user with last_login := some now }
                .ok (create_token_pair user.id user.email now, db_update db user')

/-- `routers/auth.py` `refresh_token`: verify as refresh-kind (401
"Invalid refresh token"), reload the user by the verified id (401 "User
not found"), and issue a fresh pair.  No active-flag check and no store
mutation. -/
def refresh_token (refresh_tok : Jwt) (db : List User) (now : Int) :
    Except HTTPError Token :=
  match verify_token refresh_tok now "refresh" with
  | none => .error { status_code := 401, detail := "Invalid refresh token" }
  | some token_data =>
      match token_data.user_id with
      | none => .error { status_code := 401, detail := "User not found" }
      | some uid =>
          match db_get db uid with
          | none => .error { status_code := 401, detail := "User not found" }
          | some user => .ok (create_token_pair user.id user.email now)

/-! ## `auth/dependencies.py` `get_current_user` (the Identity Resolver)

The bearer credential extracted by `HTTPBearer` is modelled as
`Option Jwt`: `none` covers both a missing credential object and an empty
token string (`if not credentials or not credentials.credentials`). -/

def get_current_user (credentials : Option Jwt) (db : List User) (now : Int) :
    Except HTTPError User :=
  match credentials with
  | none =>
      .error { status_code := 401
               detail := "Authorization header missing. Please provide: Authorization: Bearer <token>" }
  | some token =>
      match verify_token token now "access" with
      | none =>
          .error { status_code := 401
                   detail := "Invalid token. Please login again to get a fresh token." }
      | some token_data =>
          match token_data.user_id with
          | none =>
              .error { status_code := 401
                       detail := "User not found. Token may be for a deleted user." }
          | some uid =>
              match db_get db uid with
              | none =>
                  .error { status_code := 401
                           detail := "User not found. Token may be for a deleted user." }
              | some user =>
                  if user.is_active = false then
                    .error { status_code := 403
                             detail := "User account is disabled. Please contact support." }
                  else .ok user

/-- `routers/auth.py` `logout`: the handler body only returns a constant
acknowledgement and touches nothing. -/
def logout (_current_user : User) : String :=
  "Successfully logged out"

/-- The `/auth/logout` endpoint: resolve the current user through
`get_current_user`, then run `logout`.  The store after the request is
returned explicitly to state the frame property. -/
def logout_endpoint (credentials : Option Jwt) (db : List User) (now : Int) :
    Except HTTPError String × List User :=
  match get_current_user credentials db now with
  | .error e => (.error e, db)
  | .ok user => (.ok (logout user), db)

/-! ## `routers/auth.py` `google_callback`

The server-side session holds at most the `oauth_state` CSRF nonce.  The
outcome of the external `get_google_user_info(code, state)` call is an
input to the model (`none` when the exchange or profile fetch failed).
The handler returns a token pair; it also mutates the session and the
store, both returned explicitly. -/

structure SessionStore where
  oauth_state : Option String := none
deriving Repr, DecidableEq

/-- `schemas/auth.py` `GoogleUserInfo`. -/
structure GoogleUserInfo where
  id : String
  email : String
  name : String
  picture : Option String := none
  verified_email : Bool := false
deriving Repr, DecidableEq

/-- `routers/auth.py` `google_callback`.  In source order: reject a
missing/empty `code` (400); compare the session's `oauth_state` with the
`state` query parameter, rejecting on absence or mismatch (400) — note the
session is only popped after this check passes; pop the state; reject a
failed Google exchange (400); resolve the account by email, creating a new
Google user or linking an existing row that has no `google_id`; update
`last_login`; issue the token pair. -/
def google_callback (session : SessionStore) (code : Option String)
    (state : Option String) (google_user : Option GoogleUserInfo)
    (db : List User) (now : Int) :
    Except HTTPError Token × SessionStore × List User :=
  if py_truthy code = false then
    (.error { status_code := 400, detail := "Authorization code not provided" }, session, db)
  else
    let stored_state := session.oauth_state
    if py_truthy stored_state = false ∨ stored_state ≠ state then
      (.error { status_code := 400, detail := "Invalid state parameter" }, session, db)
    else
      let session' : SessionStore := { oauth_state := none }
      match google_user with
      | none =>
          (.error { status_code := 400, detail := "Failed to get user information from Google" },
           session', db)
      | some g =>
          match db_get_by_email db g.email with
          | none =>
              let user : User :=
                { id := next_id db
                  email := g.email
                  username := some ((g.email.splitOn "@").headD "")
                  full_name := some g.name
                  google_id := some g.id
                  provider := "google"
                  avatar_url := g.picture
                  is_active := true
                  is_verified := g.verified_email
                  created_at := now
                  last_login := some now }
              (.ok (create_token_pair user.id user.email now), session', db ++ [user])
          | some user =>
              let linked : User :=
                if py_truthy user.google_id = false then
                  { user with google_id := some g.id
                              provider := "google"
                              avatar_url := g.picture
                              is_verified := g.verified_email }
                else user
              let updated : User := { linked with last_login := some now }
              (.ok (create_token_pair updated.id updated.email now), session',
               db_update db updated)

/-- `auth/dependencies.py` `get_current_active_user`: the secondary
defence-in-depth check composed on top of `get_current_user` by the
`CurrentActiveUser` dependency used by the expense/category routers. -/
def get_current_active_user (current_user : User) : Except HTTPError User :=
  if current_user.is_active = false then
    .error { status_code := 400, detail := "Inactive user" }
  else .ok current_user

/-- The `CurrentActiveUser` dependency chain:
`get_current_user` then `get_current_active_user`. -/
def resolve_active_user (credentials : Option Jwt) (db : List User) (now : Int) :
    Except HTTPError User :=
  match get_current_user credentials db now with
  | .error e => .error e
  | .ok user => get_current_active_user user

/-- The claim's failure condition for `verify_token`, stated from the
spec's words: the signature is invalid, the token is malformed, the
expiry has passed, the `type` claim is absent or differs from the
requested kind, the `sub` claim is missing or not parseable as an
integer, or the `email` claim is missing. -/
def verify_rejects_spec (token : Jwt) (token_type : String) (now : Int) : Prop :=
  jose_decode token jwt_secret_key now = .error .invalidSignature ∨
  jose_decode token jwt_secret_key now = .error .malformedToken ∨
  jose_decode token jwt_secret_key now = .error .expiredSignature ∨
  (∃ p, jose_decode token jwt_secret_key now = .ok p ∧
    (p.typ ≠ some token_type ∨ p.sub = none ∨
      (∃ s, p.sub = some s ∧ py_int? s = none) ∨ p.email = none))

/-! ## Helper lemmas: the decimal printer/parser roundtrip -/

theorem digitVal_digitChar (d : Nat) (h : d < 10) : digitVal (digitChar d) = d := by
  interval_cases d <;> decide

theorem isDigit_digitChar (d : Nat) : (digitChar d).isDigit = true := by
  unfold digitChar
  split <;> decide

theorem parseDigits_append (l : List Char) (c : Char) :
    parseDigits (l ++ [c]) = parseDigits l * 10 + digitVal c := by
  simp [parseDigits, List.foldl_append]

theorem natDigitsRevFuel_spec (fuel : Nat) : ∀ n : Nat, n ≤ fuel →
    parseDigits (natDigitsRevFuel fuel n).reverse = n ∧
    (natDigitsRevFuel fuel n).all Char.isDigit = true := by
  induction fuel with
  | zero =>
      intro n hn
      interval_cases n
      simp [natDigitsRevFuel, parseDigits]
  | succ fuel ih =>
      intro n hn
      cases n with
      | zero => simp [natDigitsRevFuel, parseDigits]
      | succ m =>
          have hdiv : (m + 1) / 10 ≤ fuel := by
            have := Nat.div_lt_self (Nat.succ_pos m) (by omega : (1 : Nat) < 10)
            omega
          obtain ⟨ih1, ih2⟩ := ih ((m + 1) / 10) hdiv
          rw [natDigitsRevFuel]
          refine ⟨?_, ?_⟩
          · rw [List.reverse_cons, parseDigits_append, ih1,
              digitVal_digitChar _ (Nat.mod_lt _ (by omega))]
            omega
          · simp [List.all_cons, isDigit_digitChar, ih2]

theorem natDigitsRev_spec (n : Nat) :
    parseDigits (natDigitsRev n).reverse = n ∧ (natDigitsRev n).all Char.isDigit = true :=
  natDigitsRevFuel_spec n n le_rfl

theorem natDigitsRev_ne_nil (n : Nat) (h : n ≠ 0) : natDigitsRev n ≠ [] := by
  cases n with
  | zero => exact absurd rfl h
  | succ m => simp [natDigitsRev, natDigitsRevFuel]

theorem not_sign_of_isDigit (c : Char) (h : c.isDigit = true) :
    (c == '-') = false ∧ (c == '+') = false := by
  refine ⟨?_, ?_⟩ <;>
  · rw [beq_eq_false_iff_ne]
    intro hc
    subst hc
    simp at h

/-- Python roundtrip: `int(str(n)) == n` for a non-negative integer. -/
theorem py_int?_py_str (n : Nat) : py_int? (py_str n) = some (n : Int) := by
  by_cases h : n = 0
  · subst h; rfl
  · have hspec := natDigitsRev_spec n
    have hne : (natDigitsRev n).reverse ≠ [] := by
      simpa using natDigitsRev_ne_nil n h
    unfold py_str
    rw [if_neg h]
    unfold py_int?
    have hdata : (String.mk ((natDigitsRev n).reverse)).data = (natDigitsRev n).reverse := rfl
    rw [hdata]
    cases hl : (natDigitsRev n).reverse with
    | nil => exact absurd hl hne
    | cons c rest =>
        have hall : ((c :: rest).all Char.isDigit) = true := by
          rw [← hl, List.all_reverse]
          exact hspec.2
        have hc : c.isDigit = true := by
          have hall2 := hall
          rw [List.all_cons, Bool.and_eq_true] at hall2
          exact hall2.1
        obtain ⟨hminus, hplus⟩ := not_sign_of_isDigit c hc
        rw [py_int_chars?]
        simp only [hminus, hplus, hall, if_true, if_false, Bool.false_eq_true]
        rw [← hl, hspec.1]

/-! ## Claim theorems -/

/-- C1: for every `user_id` and `email`, the access token produced by
`create_token_pair` (claims `sub = str(user_id)`, `email = email`)
verifies under kind `"access"` (at any clock not past its expiry) to a
`TokenData` matching the inputs, and returns `None` under kind
`"refresh"`; symmetrically the refresh token verifies under `"refresh"`
and returns `None` under `"access"`. -/
theorem token_kind_discrimination (user_id : Nat) (email : String) (now now' : Int) :
    (now' ≤ now + access_token_expire_minutes * 60 →
      verify_token (create_token_pair user_id email now).access_token now' "access"
        = some { user_id := some (user_id : Int), email := some email }) ∧
    verify_token (create_token_pair user_id email now).access_token now' "refresh" = none ∧
    (now' ≤ now + refresh_token_expire_days * 24 * 60 * 60 →
      verify_token (create_token_pair user_id email now).refresh_token now' "refresh"
        = some { user_id := some (user_id : Int), email := some email }) ∧
    verify_token (create_token_pair user_id email now).refresh_token now' "access" = none := by
  refine ⟨?_, ?_, ?_, ?_⟩
  · intro hexp
    simp [verify_token, create_token_pair, create_access_token, jose_decode,
      py_int?_py_str, show ¬(now + access_token_expire_minutes * 60 < now') by omega]
  · by_cases hexp : now + access_token_expire_minutes * 60 < now' <;>
      simp [verify_token, create_token_pair, create_access_token, jose_decode, hexp]
  · intro hexp
    simp [verify_token, create_token_pair, create_refresh_token, jose_decode,
      py_int?_py_str, show ¬(now + refresh_token_expire_days * 24 * 60 * 60 < now') by omega]
  · by_cases hexp : now + refresh_token_expire_days * 24 * 60 * 60 < now' <;>
      simp [verify_token, create_token_pair, create_refresh_token, jose_decode, hexp]

/-- Witness for C1 at `user_id = 7`, `email = "u@example.com"`, issued at
clock 0 and verified at clock 5. -/
theorem token_kind_discrimination_witness :
    ((5 : Int) ≤ 0 + access_token_expire_minutes * 60 ∧
      verify_token (create_token_pair 7 "u@example.com" 0).access_token 5 "access"
        = some { user_id := some 7, email := some "u@example.com" }) ∧
    verify_token (create_token_pair 7 "u@example.com" 0).access_token 5 "refresh" = none ∧
    ((5 : Int) ≤ 0 + refresh_token_expire_days * 24 * 60 * 60 ∧
      verify_token (create_token_pair 7 "u@example.com" 0).refresh_token 5 "refresh"
        = some { user_id := some 7, email := some "u@example.com" }) ∧
    verify_token (create_token_pair 7 "u@example.com" 0).refresh_token 5 "access" = none := by
  have h := token_kind_discrimination 7 "u@example.com" 0 5
  exact ⟨⟨by decide, h.1 (by decide)⟩, h.2.1, ⟨by decide, h.2.2.1 (by decide)⟩, h.2.2.2⟩

/-- C2: `verify_token` never raises to its caller (it is a total function
into `Option`, every library exception being caught in its body) and
returns `None` exactly when the signature is invalid, the token is
malformed, the expiry has passed, the `type` claim is absent or differs
from the requested kind, the `sub` claim is missing or unparseable as an
integer, or the `email` claim is missing. -/
theorem verify_token_none_iff (token : Jwt) (token_type : String) (now : Int) :
    verify_token token now token_type = none ↔ verify_rejects_spec token token_type now := by
  cases token with
  | malformed raw =>
      simp [verify_token, jose_decode, verify_rejects_spec]
  | signed p k =>
      by_cases hk : k = jwt_secret_key
      · subst hk
        by_cases hexp : p.exp < now
        · simp [verify_token, jose_decode, hexp, verify_rejects_spec]
        · by_cases htyp : p.typ = some token_type
          · cases hsub : p.sub with
            | none =>
                simp [verify_token, jose_decode, hexp, verify_rejects_spec, htyp, hsub]
            | some s =>
                cases hemail : p.email with
                | none =>
                    simp [verify_token, jose_decode, hexp, verify_rejects_spec, htyp,
                      hsub, hemail]
                | some e =>
                    cases hint : py_int? s with
                    | none =>
                        simp [verify_token, jose_decode, hexp, verify_rejects_spec,
                          htyp, hsub, hemail, hint]
                    | some v =>
                        simp [verify_token, jose_decode, hexp, verify_rejects_spec,
                          htyp, hsub, hemail, hint]
          · simp [verify_token, jose_decode, hexp, verify_rejects_spec, htyp]
      · simp [verify_token, jose_decode, hk, verify_rejects_spec]

/-- C4 counterexample: on a stored-hash string that passlib cannot
identify, `verify_password` does not return `false` — it propagates the
library's `UnknownHashError` to its caller, because its body calls
`pwd_context.verify` with no exception handling. -/
theorem verify_password_throws_on_malformed :
    verify_password "password" (HashStr.malformedHash "not-a-bcrypt-hash")
      = .error .unknownHash := rfl

/-- C4 (amended): on a well-formed stored hash `verify_password` never
throws and returns whether the password matches; on a malformed
stored-hash string it does not return `false` but propagates the
underlying library's `UnknownHashError`. -/
theorem verify_password_behaviour (plain password raw : String) :
    verify_password plain (HashStr.bcrypt password) = .ok (plain == password) ∧
    verify_password plain (HashStr.malformedHash raw) = .error .unknownHash :=
  ⟨rfl, rfl⟩

/-- C5: the three login failure cases — unknown email, known user without
a stored password hash (OAuth-only account), and failed password
verification — all produce the identical 401 `"Invalid email or
password"` response, so they are indistinguishable to the caller. -/
theorem login_failures_indistinguishable (db : List User) (login_data : LoginRequest)
    (now : Int) :
    (db_get_by_email db login_data.email = none →
      login db login_data now =
        .error (.http { status_code := 401, detail := "Invalid email or password" })) ∧
    (∀ user, db_get_by_email db login_data.email = some user →
      py_truthy_hash user.hashed_password = false →
      login db login_data now =
        .error (.http { status_code := 401, detail := "Invalid email or password" })) ∧
    (∀ user hp, db_get_by_email db login_data.email = some user →
      user.hashed_password = some hp →
      verify_password login_data.password hp = .ok false →
      login db login_data now =
        .error (.http { status_code := 401, detail := "Invalid email or password" })) := by
  refine ⟨?_, ?_, ?_⟩
  · intro hfind
    simp [login, hfind, invalid_credentials]
  · intro user hfind hhash
    simp [login, hfind, hhash, invalid_credentials]
  · intro user hp hfind hhash hver
    have htruthy : py_truthy_hash user.hashed_password = true := by
      cases hp with
      | bcrypt p => simp [py_truthy_hash, hhash]
      | malformedHash raw =>
          exact absurd hver (by simp [verify_password, pwd_context_verify])
    simp [login, hfind, htruthy, hhash, hver, invalid_credentials]

/-- Witness for C5: the three failure cases at concrete stores — empty
store; an OAuth-only user with no hash; a local user with a wrong
password — all evaluate to the same 401 response. -/
theorem login_failures_indistinguishable_witness :
    login [] { email := "a@b", password := "pw" } 0 =
      .error (.http { status_code := 401, detail := "Invalid email or password" }) ∧
    login [{ id := 1, email := "a@b", created_at := 0 }]
        { email := "a@b", password := "pw" } 0 =
      .error (.http { status_code := 401, detail := "Invalid email or password" }) ∧
    login [{ id := 1, email := "a@b", hashed_password := some (hash_password "right"),
             created_at := 0 }]
        { email := "a@b", password := "wrong" } 0 =
      .error (.http { status_code := 401, detail := "Invalid email or password" }) := by
  refine ⟨?_, ?_, ?_⟩
  · exact (login_failures_indistinguishable [] { email := "a@b", password := "pw" } 0).1 rfl
  · exact (login_failures_indistinguishable
        [{ id := 1, email := "a@b", created_at := 0 }]
        { email := "a@b", password := "pw" } 0).2.1
      { id := 1, email := "a@b", created_at := 0 } rfl rfl
  · exact (login_failures_indistinguishable
        [{ id := 1, email := "a@b", hashed_password := some (hash_password "right"),
           created_at := 0 }]
        { email := "a@b", password := "wrong" } 0).2.2
      { id := 1, email := "a@b", hashed_password := some (hash_password "right"),
        created_at := 0 }
      (hash_password "right") rfl rfl rfl

/-- C6: the Identity Resolver's gates, in source order, each hard:
missing credential → 401 missing-auth; failed access-kind verification →
401; verified subject with no user row → 401; loaded user with
`is_active = false` → 403 (not 401), for every store and clock.  The
last two conjuncts extend this to every protected endpoint: the resolver
never hands a disabled user to a handler, and the `CurrentActiveUser`
chain used by the expense/category routers forwards the resolver's
error unchanged, so a disabled user's still-valid token yields the 403
everywhere. -/
theorem get_current_user_gates (db : List User) (now : Int) :
    (get_current_user none db now =
      .error { status_code := 401
               detail := "Authorization header missing. Please provide: Authorization: Bearer <token>" }) ∧
    (∀ token, verify_token token now "access" = none →
      get_current_user (some token) db now =
        .error { status_code := 401
                 detail := "Invalid token. Please login again to get a fresh token." }) ∧
    (∀ token token_data uid, verify_token token now "access" = some token_data →
      token_data.user_id = some uid → db_get db uid = none →
      get_current_user (some token) db now =
        .error { status_code := 401
                 detail := "User not found. Token may be for a deleted user." }) ∧
    (∀ token token_data uid user, verify_token token now "access" = some token_data →
      token_data.user_id = some uid → db_get db uid = some user →
      user.is_active = false →
      get_current_user (some token) db now =
        .error { status_code := 403
                 detail := "User account is disabled. Please contact support." }) ∧
    (∀ credentials user, get_current_user credentials db now = .ok user →
      user.is_active = false → False) ∧
    (∀ credentials e, get_current_user credentials db now = .error e →
      resolve_active_user credentials db now = .error e) := by
  refine ⟨rfl, ?_, ?_, ?_, ?_, ?_⟩
  · intro token hver
    simp [get_current_user, hver]
  · intro token token_data uid hver huid hdb
    simp [get_current_user, hver, huid, hdb]
  · intro token token_data uid user hver huid hdb hactive
    simp [get_current_user, hver, huid, hdb, hactive]
  · intro credentials user hok hactive
    cases credentials with
    | none => simp [get_current_user] at hok
    | some token =>
        cases hver : verify_token token now "access" with
        | none => simp [get_current_user, hver] at hok
        | some token_data =>
            cases huid : token_data.user_id with
            | none => simp [get_current_user, hver, huid] at hok
            | some uid =>
                cases hdb : db_get db uid with
                | none => simp [get_current_user, hver, huid, hdb] at hok
                | some u =>
                    by_cases hact : u.is_active = false
                    · simp [get_current_user, hver, huid, hdb, hact] at hok
                    · simp [get_current_user, hver, huid, hdb, hact] at hok
                      subst hok
                      exact hact hactive
  · intro credentials e herr
    simp [resolve_active_user, herr]

/-- Witness for C6: a disabled user (id 1) whose still-valid access token
is presented — the resolver answers 403; an invalid token answers 401;
a valid token for an absent row answers 401. -/
theorem get_current_user_gates_witness :
    get_current_user (some (create_token_pair 1 "a@b" 0).access_token)
        [{ id := 1, email := "a@b", is_active := false, created_at := 0 }] 0 =
      .error { status_code := 403
               detail := "User account is disabled. Please contact support." } ∧
    get_current_user (some (Jwt.malformed "garbage"))
        [{ id := 1, email := "a@b", is_active := false, created_at := 0 }] 0 =
      .error { status_code := 401
               detail := "Invalid token. Please login again to get a fresh token." } ∧
    get_current_user (some (create_token_pair 2 "c@d" 0).access_token)
        [{ id := 1, email := "a@b", is_active := false, created_at := 0 }] 0 =
      .error { status_code := 401
               detail := "User not found. Token may be for a deleted user." } ∧
    resolve_active_user (some (create_token_pair 1 "a@b" 0).access_token)
        [{ id := 1, email := "a@b", is_active := false, created_at := 0 }] 0 =
      .error { status_code := 403
               detail := "User account is disabled. Please contact support." } := by
  have h := get_current_user_gates
    [{ id := 1, email := "a@b", is_active := false, created_at := 0 }] 0
  have h403 := h.2.2.2.1 (create_token_pair 1 "a@b" 0).access_token
    { user_id := some 1, email := some "a@b" } 1
    { id := 1, email := "a@b", is_active := false, created_at := 0 }
    (by rfl) rfl (by rfl) rfl
  refine ⟨h403, ?_, ?_, ?_⟩
  · exact h.2.1 (Jwt.malformed "garbage") rfl
  · exact h.2.2.1 (create_token_pair 2 "c@d" 0).access_token
      { user_id := some 2, email := some "c@d" } 2 (by rfl) rfl (by rfl)
  · exact h.2.2.2.2.2 (some (create_token_pair 1 "a@b" 0).access_token) _ h403

/-- `register` on a store that already holds the email: 400 and no state
change. -/
theorem register_existing_email (db : List User) (d : UserCreate) (now : Int) (u : User)
    (h : db_get_by_email db d.email = some u) :
    register db d now =
      (.error { status_code := 400, detail := "User with this email already exists" }, db) := by
  simp [register, h]

/-- C7: after a registration for some email succeeds, a second
registration attempt with the same email returns 400 and leaves the
store — in particular the first account's row — completely unchanged. -/
theorem register_duplicate_rejected (db : List User) (d1 d2 : UserCreate)
    (now1 now2 : Int) (hemail : d2.email = d1.email)
    (hok : ∃ r, (register db d1 now1).1 = .ok r) :
    register (register db d1 now1).2 d2 now2 =
      (.error { status_code := 400, detail := "User with this email already exists" },
       (register db d1 now1).2) := by
  cases hfind : db_get_by_email db d1.email with
  | some u =>
      exfalso
      obtain ⟨r, hr⟩ := hok
      simp [register, hfind] at hr
  | none =>
      have hdb1 : (register db d1 now1).2 = db ++
          [({ id := next_id db, email := d1.email, username := d1.username,
              full_name := d1.full_name,
              hashed_password := some (hash_password d1.password),
              provider := "local", is_active := true, is_verified := false,
              created_at := now1 } : User)] := by
        simp [register, hfind]
      have hfind2 : db_get_by_email (register db d1 now1).2 d2.email ≠ none := by
        rw [hdb1]
        unfold db_get_by_email at hfind ⊢
        rw [List.find?_append, hemail, hfind]
        simp
      cases hfind2' : db_get_by_email (register db d1 now1).2 d2.email with
      | none => exact absurd hfind2' hfind2
      | some u2 => exact register_existing_email _ d2 now2 u2 hfind2'

/-- Witness for C7: registering `a@b` into an empty store, then
registering `a@b` again, returns 400 and an unchanged store. -/
theorem register_duplicate_rejected_witness :
    register (register [] { email := "a@b", password := "pw1" } 0).2
        { email := "a@b", username := some "other", password := "pw2" } 1 =
      (.error { status_code := 400, detail := "User with this email already exists" },
       (register [] { email := "a@b", password := "pw1" } 0).2) :=
  register_duplicate_rejected [] { email := "a@b", password := "pw1" }
    { email := "a@b", username := some "other", password := "pw2" } 0 1 rfl
    ⟨_, rfl⟩

/-- C8: logout changes no server-side state: for every credential, store
and clock, the store after the request is the store before it, a
successful call returns only the constant acknowledgement, and any
request authenticated against the post-logout store resolves exactly as
it did before (no token was invalidated — verification consults no
server-side state). -/
theorem logout_changes_nothing (credentials : Option Jwt) (db : List User) (now : Int) :
    (logout_endpoint credentials db now).2 = db ∧
    (∀ user, get_current_user credentials db now = .ok user →
      (logout_endpoint credentials db now).1 = .ok "Successfully logged out") ∧
    (∀ credentials2 now2,
      get_current_user credentials2 (logout_endpoint credentials db now).2 now2 =
        get_current_user credentials2 db now2) := by
  have hframe : (logout_endpoint credentials db now).2 = db := by
    unfold logout_endpoint
    cases get_current_user credentials db now <;> rfl
  refine ⟨hframe, ?_, ?_⟩
  · intro user huser
    simp [logout_endpoint, huser, logout]
  · intro credentials2 now2
    rw [hframe]

/-- Witness for C8 (second conjunct) at a concrete active user and their
valid access token. -/
theorem logout_changes_nothing_witness :
    (logout_endpoint (some (create_token_pair 1 "a@b" 0).access_token)
        [{ id := 1, email := "a@b", created_at := 0 }] 0).1 =
      .ok "Successfully logged out" ∧
    (logout_endpoint (some (create_token_pair 1 "a@b" 0).access_token)
        [{ id := 1, email := "a@b", created_at := 0 }] 0).2 =
      [{ id := 1, email := "a@b", created_at := 0 }] := by
  have h := logout_changes_nothing (some (create_token_pair 1 "a@b" 0).access_token)
    [{ id := 1, email := "a@b", created_at := 0 }] 0
  exact ⟨h.2.1 { id := 1, email := "a@b", created_at := 0 } (by rfl), h.1⟩

/-- C9: the refresh endpoint never consults the active flag — for a user
row that exists with `is_active = false`, a valid unexpired refresh token
yields a fresh token pair, not a rejection. -/
theorem refresh_ignores_active_flag (refresh_tok : Jwt) (db : List User) (now : Int)
    (token_data : TokenData) (uid : Int) (user : User)
    (hver : verify_token refresh_tok now "refresh" = some token_data)
    (huid : token_data.user_id = some uid)
    (hdb : db_get db uid = some user)
    (_hinactive : user.is_active = false) :
    refresh_token refresh_tok db now = .ok (create_token_pair user.id user.email now) := by
  simp [refresh_token, hver, huid, hdb]

/-- Witness for C9: a disabled user (id 1) presents their valid refresh
token and receives a fresh pair. -/
theorem refresh_ignores_active_flag_witness :
    refresh_token (create_token_pair 1 "a@b" 0).refresh_token
        [{ id := 1, email := "a@b", is_active := false, created_at := 0 }] 5 =
      .ok (create_token_pair 1 "a@b" 5) :=
  refresh_ignores_active_flag (create_token_pair 1 "a@b" 0).refresh_token
    [{ id := 1, email := "a@b", is_active := false, created_at := 0 }] 5
    { user_id := some 1, email := some "a@b" } 1
    { id := 1, email := "a@b", is_active := false, created_at := 0 }
    (by rfl) rfl (by rfl) rfl

/-- C3 counterexample: a callback that aborts on state mismatch does NOT
clear the stored state.  With `oauth_state = "a"` persisted, a callback
carrying a valid code and state `"b"` is rejected with 400 — and the
session still holds `"a"` afterwards, contradicting "state is still
cleared" / "consumed on the first callback attempt regardless of
validation outcome". -/
theorem google_callback_mismatch_keeps_state :
    google_callback { oauth_state := some "a" } (some "valid-code") (some "b") none [] 0 =
      (.error { status_code := 400, detail := "Invalid state parameter" },
       { oauth_state := some "a" }, []) := rfl

/-- C3 (amended): the CSRF state is consumed exactly once, on the first
callback attempt that passes state validation (present, non-empty and
byte-for-byte equal), regardless of the outcome of the rest of the flow
(in particular even when the Google profile fetch fails); after that, a
callback reusing the consumed state value is rejected with 400 even with
a valid code.  A callback aborting on state mismatch, however, leaves
the stored state in the session untouched. -/
theorem google_callback_state_consumed_once (session : SessionStore)
    (code state : Option String) (google_user : Option GoogleUserInfo)
    (db : List User) (now : Int) (s : String)
    (hcode : py_truthy code = true)
    (hstate : session.oauth_state = some s) (hs : s ≠ "")
    (hmatch : state = some s) :
    (google_callback session code state google_user db now).2.1 =
      { oauth_state := none } ∧
    (∀ code2 google_user2 db2 now2, py_truthy code2 = true →
      google_callback (google_callback session code state google_user db now).2.1
          code2 (some s) google_user2 db2 now2 =
        (.error { status_code := 400, detail := "Invalid state parameter" },
         (google_callback session code state google_user db now).2.1, db2)) ∧
    (∀ state', state' ≠ some s →
      google_callback session code state' google_user db now =
        (.error { status_code := 400, detail := "Invalid state parameter" },
         session, db)) := by
  have hps : py_truthy (some s) = true := by simp [py_truthy, hs]
  have hcleared : (google_callback session code state google_user db now).2.1 =
      { oauth_state := none } := by
    cases google_user with
    | none => simp [google_callback, hcode, hstate, hmatch, hps]
    | some g =>
        cases hfind : db_get_by_email db g.email with
        | none => simp [google_callback, hcode, hstate, hmatch, hps, hfind]
        | some u => simp [google_callback, hcode, hstate, hmatch, hps, hfind]
  refine ⟨hcleared, ?_, ?_⟩
  · intro code2 google_user2 db2 now2 hcode2
    rw [hcleared]
    simp [google_callback, hcode2, show py_truthy none = false from rfl]
  · intro state' hne
    have hne' : session.oauth_state ≠ state' := by
      rw [hstate]
      exact fun h => hne h.symm
    simp [google_callback, hcode, hne']

/-- Witness for C3 (amended): state `"a"` is stored; a matching callback
whose Google exchange fails still clears the state, and replaying state
`"a"` afterwards is rejected; a mismatching state `"b"` leaves the
session untouched. -/
theorem google_callback_state_consumed_once_witness :
    (google_callback { oauth_state := some "a" } (some "code") (some "a") none [] 0).2.1 =
      { oauth_state := none } ∧
    google_callback (google_callback { oauth_state := some "a" } (some "code") (some "a")
          none [] 0).2.1
        (some "code2") (some "a") none [] 1 =
      (.error { status_code := 400, detail := "Invalid state parameter" },
       (google_callback { oauth_state := some "a" } (some "code") (some "a") none [] 0).2.1,
       []) ∧
    google_callback { oauth_state := some "a" } (some "code") (some "b") none [] 0 =
      (.error { status_code := 400, detail := "Invalid state parameter" },
       { oauth_state := some "a" }, []) := by
  have h := google_callback_state_consumed_once { oauth_state := some "a" }
    (some "code") (some "a") none [] 0 "a" rfl rfl (by decide) rfl
  exact ⟨h.1, h.2.1 (some "code2") none [] 1 rfl, h.2.2 (some "b") (by decide)⟩

/-- C10: an OAuth callback resolving to an existing user whose
`google_id` is already set leaves `google_id`, `provider`, `avatar_url`
and `is_verified` (and every other field) unchanged — the row is
replaced by itself with only `last_login` updated — before the token
pair is issued. -/
theorem google_callback_existing_linked_frame (session : SessionStore)
    (code state : Option String) (g : GoogleUserInfo) (db : List User) (now : Int)
    (s : String) (user : User)
    (hcode : py_truthy code = true)
    (hstate : session.oauth_state = some s) (hs : s ≠ "")
    (hmatch : state = some s)
    (hfind : db_get_by_email db g.email = some user)
    (hlinked : py_truthy user.google_id = true) :
    google_callback session code state (some g) db now =
      (.ok (create_token_pair user.id user.email now), { oauth_state := none },
       db_update db { user with last_login := some now }) := by
  have hps : py_truthy (some s) = true := by simp [py_truthy, hs]
  simp [google_callback, hcode, hstate, hmatch, hps, hfind, hlinked]

/-- Witness for C10: an existing user with `google_id = "g-1"` logging in
again via Google — only `last_login` moves. -/
theorem google_callback_existing_linked_frame_witness :
    google_callback { oauth_state := some "a" } (some "code") (some "a")
        (some { id := "g-1", email := "a@b", name := "A B",
                picture := some "http://pic2", verified_email := true })
        [{ id := 1, email := "a@b", google_id := some "g-1", provider := "google",
           avatar_url := some "http://pic1", is_verified := true, created_at := 0,
           last_login := some 100 }] 200 =
      (.ok (create_token_pair 1 "a@b" 200), { oauth_state := none },
       [{ id := 1, email := "a@b", google_id := some "g-1", provider := "google",
          avatar_url := some "http://pic1", is_verified := true, created_at := 0,
          last_login := some 200 }]) := by
  have h := google_callback_existing_linked_frame { oauth_state := some "a" }
    (some "code") (some "a")
    { id := "g-1", email := "a@b", name := "A B",
      picture := some "http://pic2", verified_email := true }
    [{ id := 1, email := "a@b", google_id := some "g-1", provider := "google",
       avatar_url := some "http://pic1", is_verified := true, created_at := 0,
       last_login := some 100 }] 200 "a"
    { id := 1, email := "a@b", google_id := some "g-1", provider := "google",
      avatar_url := some "http://pic1", is_verified := true, created_at := 0,
      last_login := some 100 }
    rfl rfl (by decide) rfl (by rfl) rfl
  exact h

end ExpenseTracker
